import Mathlib

/-!
# Mega2560 notification controller: serial bridge and notification state machine

Shallow embedding of `src/Mega2560/src/main.cpp`.

* Every call the sketch makes on a peripheral (pins, tone generator, the two
  LCDs, the USB console `Serial`, the transport link `Serial1`) and every call
  of the JSON decoder is recorded, in program order, as a `Call`.
* `millis()` is an input: each `loop()` pass receives the value returned by each
  of its four `millis()` calls.  `unsigned long` is 32 bits wide on the AVR, so
  subtraction is taken modulo `2^32`.
* `deserializeJson` belongs to the ArduinoJson library; it is a parameter of
  `loop`, and every theorem holds for every decoder.
* An Arduino `String` keeps every byte it was given, NUL bytes included, while
  `String::indexOf` searches with `strstr`, which reads up to the first NUL.
-/

namespace Mega2560

/-! ## Constants -/

/-- Pin of the speaker: `#define SPEAKER_PIN 57`. -/
def SPEAKER_PIN : Nat := 57

/-- First EEPROM address of the credential: `#define EEPROM_ADDR 0`. -/
def EEPROM_ADDR : Nat := 0

/-- Length of the credential: `#define AUTH_LEN 8`. -/
def AUTH_LEN : Nat := 8

/-- Pins of the RGB LED, `int RGB_LED[] = {6, 7, 8}` (B, G, R). -/
def RGB_LED : List Nat := [6, 7, 8]

/-- Note names of `pitche.h` used by the sketch (the header gives each a
frequency; the sketch only passes the names on to `tone`). -/
inductive Note where
  | NOTE_C5
  | NOTE_E5
  | NOTE_DS5
  | NOTE_G5
  deriving DecidableEq, Repr

/-! ## Peripheral calls -/

/-- One call on a peripheral or on the JSON decoder. -/
inductive Call where
  | pinModeOutput (pin : Nat)
  | serialBegin (baud : Nat)
  | serial1Begin (baud : Nat)
  | lcdBegin (cols rows : Nat)
  | glcdInit
  | analogWrite (pin : Nat) (value : Nat)
  | tone (pin : Nat) (note : Note) (duration : Nat)
  | noTone (pin : Nat)
  | delay (ms : Nat)
  | lcdClear
  | lcdSetCursor (col row : Nat)
  | lcdPrint (s : String)
  | lcdPrintNum (n : Nat)
  | glcdClearScreen
  | glcdSelectFont
  | glcdGotoXY (x y : Nat)
  | glcdPrint (s : String)
  | serialPrint (s : String)
  | serialPrintln (s : String)
  | serial1Println (s : String)
  | deserializeJson (input : String)
  deriving DecidableEq, Repr

/-- Colour sink: a write on one of the RGB LED pins. -/
def Call.isColor : Call → Bool
  | .analogWrite _ _ => true
  | _ => false

/-- Sound sink: the calls the beep functions are made of. -/
def Call.isSound : Call → Bool
  | .tone _ _ _ => true
  | .noTone _ => true
  | .delay _ => true
  | _ => false

/-- Display sink: the character LCD, the graphic LCD and the USB console. -/
def Call.isDisplay : Call → Bool
  | .lcdClear => true
  | .lcdSetCursor _ _ => true
  | .lcdPrint _ => true
  | .lcdPrintNum _ => true
  | .glcdClearScreen => true
  | .glcdSelectFont => true
  | .glcdGotoXY _ _ => true
  | .glcdPrint _ => true
  | .serialPrint _ => true
  | .serialPrintln _ => true
  | _ => false

/-- Transport link: a line written on `Serial1`. -/
def Call.isTransportWrite : Call → Bool
  | .serial1Println _ => true
  | _ => false

/-- Source `setRGB(r, g, b)`: three `analogWrite`s, on `RGB_LED[2]`, `RGB_LED[1]`,
`RGB_LED[0]`. -/
def setRGB (r g b : Nat) : List Call :=
  [.analogWrite (RGB_LED.getD 2 0) r,
   .analogWrite (RGB_LED.getD 1 0) g,
   .analogWrite (RGB_LED.getD 0 0) b]

/-- Source `beepAccess()`. -/
def beepAccess : List Call :=
  [.tone SPEAKER_PIN .NOTE_C5 320, .delay 150,
   .tone SPEAKER_PIN .NOTE_E5 320, .delay 150,
   .noTone SPEAKER_PIN]

/-- Body of the `for` loop of `beepWarning()`, run `n` times. -/
def beepWarningLoop : Nat → List Call
  | 0 => []
  | n + 1 =>
    [.tone SPEAKER_PIN .NOTE_DS5 300, .delay 120, .noTone SPEAKER_PIN, .delay 100]
      ++ beepWarningLoop n

/-- Source `beepWarning()`: `for (int i = 0; i < 3; i++)`. -/
def beepWarning : List Call := beepWarningLoop 3

/-- Source `beepNotice()`. -/
def beepNotice : List Call :=
  [.tone SPEAKER_PIN .NOTE_G5 380, .delay 100, .noTone SPEAKER_PIN]

/-- Source `displayGLCDMessage`; `timeStr` is a parameter the body never prints. -/
def displayGLCDMessage (typeStr _timeStr nameStr etc1 etc2 etc3 sendTime : String) :
    List Call :=
  [.glcdClearScreen, .glcdSelectFont,
   .glcdGotoXY 0 0, .glcdPrint "Type: ", .glcdPrint typeStr,
   .glcdGotoXY 0 8, .glcdPrint "name: ", .glcdPrint nameStr,
   .glcdGotoXY 0 16, .glcdPrint "Delivery message",
   .glcdGotoXY 0 24, .glcdPrint etc1,
   .glcdGotoXY 0 32, .glcdPrint etc2,
   .glcdGotoXY 0 40, .glcdPrint etc3,
   .glcdGotoXY 0 56, .glcdPrint "보낸시각: ", .glcdPrint sendTime]

/-! ## C strings and `setup()` -/

/-- The NUL character that ends a C string. -/
def NUL : Char := Char.ofNat 0

/-- The C string held by a buffer: its characters up to the first NUL. -/
def cstr (buf : List Char) : List Char := buf.takeWhile (fun c => c != NUL)

/-- Byte-wise comparison of two C strings, `0` exactly when they are equal. -/
def cmpBytes : List Char → List Char → Int
  | [], [] => 0
  | [], b :: _ => - (b.toNat : Int)
  | a :: _, [] => (a.toNat : Int)
  | a :: as, b :: bs => if a = b then cmpBytes as bs else (a.toNat : Int) - (b.toNat : Int)

/-- C library `strcmp` on two buffers. -/
def strcmp (a b : List Char) : Int := cmpBytes (cstr a) (cstr b)

/-- How `setup()` ends: it returns, or it spins in `while (1);` for ever. -/
inductive Outcome where
  | returned
  | halted
  deriving DecidableEq, Repr

/-- The `AUTH_LEN` bytes `EEPROM.read(EEPROM_ADDR + i)`, `i = 0 .. AUTH_LEN - 1`. -/
def readAuth (eepromRead : Nat → Char) : List Char :=
  (List.range AUTH_LEN).map (fun i => eepromRead (EEPROM_ADDR + i))

/-- Source `setup()`. -/
def setup (eepromRead : Nat → Char) : Outcome × List Call :=
  let init : List Call :=
    [.pinModeOutput SPEAKER_PIN] ++ RGB_LED.map .pinModeOutput ++
    [.serialBegin 115200, .serial1Begin 9600, .lcdBegin 20 4,
     .glcdInit, .glcdClearScreen, .glcdSelectFont]
  let auth : List Char := readAuth eepromRead ++ [NUL]
  if strcmp auth ("embenull".toList ++ [NUL]) = 0 then
    (.returned, init ++
      [.lcdClear, .lcdSetCursor 0 0, .lcdPrint "Auth Success",
       .serialPrintln "Auth Success",
       .serial1Println "CONNECT",
       .glcdGotoXY 0 0, .glcdPrint "Waiting for MQTT..."])
  else
    (.halted, init ++
      [.lcdClear, .lcdSetCursor 0 0, .lcdPrint "Auth Failed",
       .serialPrintln "Auth Failed",
       .glcdGotoXY 0 0, .glcdPrint "Auth Failed"] ++
      setRGB 255 0 0)

/-! ## `unsigned long` and Arduino `String` -/

/-- Number of values of an `unsigned long` (32 bits on the AVR). -/
def ULONG_MOD : Nat := 4294967296

/-- Subtraction of two `unsigned long` values: `a - b` modulo `2^32`. -/
def usub (a b : Nat) : Nat := (a % ULONG_MOD + ULONG_MOD - b % ULONG_MOD) % ULONG_MOD

/-- C library `isspace` in the "C" locale. -/
def isspace (c : Char) : Bool :=
  c == ' ' || c == '\t' || c == '\n' || c == Char.ofNat 11 || c == Char.ofNat 12 || c == '\r'

/-- Arduino `String::trim()` on the characters of the string: leading and
trailing `isspace` characters are removed. -/
def trimChars (l : List Char) : List Char :=
  ((l.dropWhile isspace).reverse.dropWhile isspace).reverse

/-- Arduino `String::trim()`. -/
def trim (s : String) : String := String.mk (trimChars s.toList)

/-- C library `strstr` on two C strings (no NUL inside): the offset, counted from
`i`, of the first place of the haystack where the needle starts, or `-1`; an
empty needle is found at once. -/
def strstrFrom (needle : List Char) : List Char → Nat → Int
  | [], i => if needle.isEmpty then (i : Int) else -1
  | c :: cs, i =>
    if needle.isPrefixOf (c :: cs) then (i : Int) else strstrFrom needle cs (i + 1)

/-- Arduino `String::indexOf(const String &)`: `-1` on a string of length zero
(`fromIndex >= len`), else `strstr(buffer, s2.buffer)`.  `strstr` reads both
buffers as C strings, so the search ends at the first NUL byte of the line. -/
def indexOf (s pat : String) : Int :=
  if s.length = 0 then -1 else strstrFrom (cstr pat.toList) (cstr s.toList) 0

/-- Arduino `String::operator[]`: the character at `index`, `0` out of range. -/
def charAt (s : String) (index : Nat) : Char := s.toList.getD index NUL

/-! ## ArduinoJson -/

/-- A member value of a decoded document, as far as `operator|` with a string
default tells them apart: a string, given as the C string its `const char*`
reads as, or anything else. -/
inductive JsonVariant where
  | str (s : String)
  | nonString
  deriving DecidableEq, Repr

/-- A decoded document: its members. -/
abbrev JsonDocument := List (String × JsonVariant)

/-- Errors of `deserializeJson`. -/
inductive DeserializationError where
  | EmptyInput
  | IncompleteInput
  | InvalidInput
  | NoMemory
  | TooDeep
  deriving DecidableEq, Repr

/-- Decoder `deserializeJson(doc, msg)` of the ArduinoJson library. -/
abbrev Deserializer := String → Except DeserializationError JsonDocument

/-- Expression `doc[key] | ""`: the member when it is a string, else `""`. -/
def memberOr (doc : JsonDocument) (key : String) : String :=
  match doc.lookup key with
  | some (.str s) => s
  | _ => ""

/-! ## `loop()` -/

/-- The three `static` variables of `loop()`. -/
structure State where
  lastPing : Nat
  lastUart : Nat
  uartConnected : Bool
  deriving DecidableEq, Repr

/-- Initial values of the `static` variables. -/
def State.init : State := { lastPing := 0, lastUart := 0, uartConnected := false }

/-- What one pass of `loop()` reads from its environment: the value of each
`millis()` call, in program order (`tPing` in the heartbeat test, `tStamp` in the
assignment to `lastPing`, `tRecv` in the assignment to `lastUart`, `tCheck` in
the timeout test; being `unsigned long`, each is below `ULONG_MOD`), and the line
on `Serial1`, if any (`none` when `Serial1.available()` is zero, else the result
of `readStringUntil`). -/
structure Poll where
  tPing : Nat
  tStamp : Nat
  tRecv : Nat
  tCheck : Nat
  line : Option String
  deriving DecidableEq, Repr

/-- A pass of `loop()` during which `millis()` returns `now` throughout. -/
def Poll.atTime (now : Nat) (line : Option String) : Poll :=
  { tPing := now, tStamp := now, tRecv := now, tCheck := now, line := line }

/-- State after a step, and the calls it made. -/
structure Result where
  state : State
  trace : List Call
  deriving DecidableEq, Repr

/-- Heartbeat marker test: `msg.indexOf("Pong") >= 0 || msg.indexOf("Ping") >= 0`. -/
def isHeartbeat (msg : String) : Bool :=
  decide (indexOf msg "Pong" ≥ 0) || decide (indexOf msg "Ping" ≥ 0)

/-- Payload test: `msg.length() > 0 && msg[0] == '{'`. -/
def isPayload (msg : String) : Bool :=
  decide (msg.length > 0) && charAt msg 0 == '{'

/-- LCD status lines written after a line was handled: "UART: Connected" and
the receipt time in seconds. -/
def lcdConnected (lastUart : Nat) : List Call :=
  [.lcdClear, .lcdSetCursor 0 0, .lcdPrint "UART: Connected",
   .lcdSetCursor 0 1, .lcdPrint "Last: ", .lcdPrintNum (lastUart / 1000), .lcdPrint "s"]

/-- First block of `loop()`: the outbound heartbeat. -/
def heartbeatStep (s : State) (p : Poll) : Result :=
  if usub p.tPing s.lastPing > 2000 then
    { state := { s with lastPing := p.tStamp },
      trace := [.serial1Println "Ping from Mega2560"] }
  else
    { state := s, trace := [] }

/-- Branch of `loop()` taken for a decoded document. -/
def dispatchEvent (msg : String) (doc : JsonDocument) (lastUart : Nat) : List Call :=
  let typeStr := memberOr doc "Type"
  let timeStr := memberOr doc "time"
  let nameStr := memberOr doc "name"
  let etc1 := memberOr doc "etc1"
  let etc2 := memberOr doc "etc2"
  let etc3 := memberOr doc "etc3"
  let sendTime := memberOr doc "send_time"
  let _notice := memberOr doc "notice"
  (if typeStr = "access" then setRGB 255 0 0 ++ beepAccess
   else if typeStr = "deaccess" then setRGB 127 255 255 ++ beepWarning
   else if typeStr = "notice" then setRGB 255 255 0 ++ beepNotice
   else setRGB 0 0 0) ++
  displayGLCDMessage typeStr timeStr nameStr etc1 etc2 etc3 sendTime ++
  [.serialPrint "[ESP→GLCD] ", .serialPrintln msg] ++
  lcdConnected lastUart

/-- Branch of `loop()` taken when `deserializeJson` reports an error. -/
def dispatchParseError (msg : String) : List Call :=
  [.lcdClear, .lcdSetCursor 0 0, .lcdPrint "JSON Parse Error",
   .serialPrint "[ERROR] JSON Parse: ", .serialPrintln msg] ++
  setRGB 255 0 0

/-- Second block of `loop()`: the inbound line. -/
def receiveStep (deserializeJson : Deserializer) (s : State) (p : Poll) : Result :=
  match p.line with
  | none => { state := s, trace := [] }
  | some raw =>
    let msg := trim raw
    let s := { s with lastUart := p.tRecv }
    if isHeartbeat msg then
      { state := { s with uartConnected := true },
        trace := lcdConnected s.lastUart ++ setRGB 0 0 0 }
    else if isPayload msg then
      match deserializeJson msg with
      | .ok doc =>
        { state := s, trace := .deserializeJson msg :: dispatchEvent msg doc s.lastUart }
      | .error _ =>
        { state := s, trace := .deserializeJson msg :: dispatchParseError msg }
    else
      { state := s, trace := [] }

/-- Calls of the disconnect notification. -/
def dispatchDisconnected (lastUart : Nat) : List Call :=
  [.lcdClear, .lcdSetCursor 0 0, .lcdPrint "UART Disconnected",
   .lcdSetCursor 0 1, .lcdPrint "Last: ", .lcdPrintNum (lastUart / 1000), .lcdPrint "s",
   .glcdClearScreen, .glcdGotoXY 0 0, .glcdPrint "UART Disconnected"] ++
  setRGB 255 0 0

/-- Third block of `loop()`: the timeout check. -/
def timeoutStep (s : State) (p : Poll) : Result :=
  if s.uartConnected && decide (usub p.tCheck s.lastUart > 5000) then
    { state := { s with uartConnected := false },
      trace := dispatchDisconnected s.lastUart }
  else
    { state := s, trace := [] }

/-- Source `loop()`: the three blocks in order. -/
def loop (deserializeJson : Deserializer) (s : State) (p : Poll) : Result :=
  let r1 := heartbeatStep s p
  let r2 := receiveStep deserializeJson r1.state p
  let r3 := timeoutStep r2.state p
  { state := r3.state, trace := r1.trace ++ r2.trace ++ r3.trace }

/-- State after a sequence of passes of `loop()`. -/
def run (deserializeJson : Deserializer) (s : State) : List Poll → State
  | [] => s
  | p :: ps => run deserializeJson (loop deserializeJson s p).state ps

/-- Calls made by each pass of a sequence of passes of `loop()`. -/
def runLog (deserializeJson : Deserializer) (s : State) : List Poll → List (List Call)
  | [] => []
  | p :: ps =>
    (loop deserializeJson s p).trace :: runLog deserializeJson (loop deserializeJson s p).state ps

/-- The sketch as the Arduino core runs it: `setup()`, then `loop()` for ever,
here for the passes given; nothing follows a `setup()` that never returns. -/
def program (eepromRead : Nat → Char) (deserializeJson : Deserializer) (polls : List Poll) :
    List Call :=
  match setup eepromRead with
  | (.returned, tr) => tr ++ (runLog deserializeJson State.init polls).flatten
  | (.halted, tr) => tr

/-- The line contains the substring "Ping" or "Pong". -/
def ContainsMarker (msg : String) : Prop :=
  "Ping".toList <:+: msg.toList ∨ "Pong".toList <:+: msg.toList

/-- The line contains "Ping" or "Pong" ahead of any NUL byte, that is, in the C
string `strstr` reads. -/
def MarkerBeforeNUL (msg : String) : Prop :=
  "Ping".toList <:+: cstr msg.toList ∨ "Pong".toList <:+: cstr msg.toList

/-- Search for "Ping" or "Pong" over the whole line, NUL bytes or not. -/
def hasMarkerAnywhere (msg : String) : Bool :=
  decide (0 ≤ strstrFrom "Ping".toList msg.toList 0) ||
    decide (0 ≤ strstrFrom "Pong".toList msg.toList 0)

/-- The first character of the line is an opening brace. -/
def StartsWithBrace (msg : String) : Prop :=
  ∃ rest : List Char, msg.toList = '{' :: rest

/-- A call of the payload parser. -/
def Call.isDecode : Call → Bool
  | .deserializeJson _ => true
  | _ => false

/-- In the sequence of calls `tr`, every call of class `P` comes before every
call of class `Q`. -/
def Precedes (P Q : Call → Bool) (tr : List Call) : Prop :=
  ∀ (i j : Nat) (a b : Call),
    tr[i]? = some a → tr[j]? = some b → P a = true → Q b = true → i < j

/-- Side effects strictly ordered colour, sound, display: every colour call
comes before every sound call and every display call, and every sound call
before every display call. -/
def StrictlyOrdered (tr : List Call) : Prop :=
  Precedes Call.isColor Call.isSound tr ∧
  Precedes Call.isSound Call.isDisplay tr ∧
  Precedes Call.isColor Call.isDisplay tr

/-- The pass receives a heartbeat line. -/
def Poll.hasHeartbeat (p : Poll) : Bool :=
  match p.line with
  | some raw => isHeartbeat (trim raw)
  | none => false

/-- Receipt time of the most recent line of any kind, `t` when no line came. -/
def lastLineFrom (t : Nat) (ps : List Poll) : Nat :=
  ps.foldl (fun acc p => if p.line.isSome then p.tRecv else acc) t

/-- In the words of the specification: `lastHeartbeatAt`, the receipt time of the
most recent heartbeat line, if one was received. -/
def lastHeartbeatAt : List Poll → Option Nat
  | [] => none
  | p :: ps =>
    match lastHeartbeatAt ps with
    | some t => some t
    | none =>
      match p.line with
      | some raw => if hasMarkerAnywhere (trim raw) then some p.tRecv else none
      | none => none

/-- In the words of the specification: the state derived at time `now` from the
heartbeat lines received so far: Connected exactly when one was received and
`now - lastHeartbeatAt` is at most 5000 ms. -/
def derivedConnected (ps : List Poll) (now : Nat) : Bool :=
  match lastHeartbeatAt ps with
  | some t => decide (usub now t ≤ 5000)
  | none => false

/-! ## Lemmas on the string functions -/

theorem strstrFrom_nonneg_iff (pat : List Char) (hpat : pat ≠ []) (l : List Char) (i : Nat) :
    0 ≤ strstrFrom pat l i ↔ pat <:+: l := by
  induction l generalizing i with
  | nil =>
    simp [strstrFrom, hpat]
  | cons c cs ih =>
    rw [strstrFrom, List.infix_cons_iff]
    by_cases hpre : pat.isPrefixOf (c :: cs) = true
    · have hp : pat <+: c :: cs := List.isPrefixOf_iff_prefix.mp hpre
      simp [hpre, hp]
    · have hp : ¬ pat <+: c :: cs := fun h => hpre (List.isPrefixOf_iff_prefix.mpr h)
      simp [hpre, hp, ih]

theorem indexOf_nonneg_iff (msg pat : String) (hpat : cstr pat.toList ≠ []) :
    0 ≤ indexOf msg pat ↔ cstr pat.toList <:+: cstr msg.toList := by
  unfold indexOf
  by_cases hlen : msg.length = 0
  · obtain ⟨l⟩ := msg
    cases l with
    | nil =>
      rw [if_pos hlen]
      constructor
      · intro h
        omega
      · intro h
        have h2 : cstr pat.toList <:+: [] := h
        exact absurd (List.infix_nil.mp h2) hpat
    | cons c cs => simp [String.length] at hlen
  · simp only [hlen, if_false]
    exact strstrFrom_nonneg_iff _ hpat _ 0

theorem isHeartbeat_iff (msg : String) : isHeartbeat msg = true ↔ MarkerBeforeNUL msg := by
  unfold isHeartbeat MarkerBeforeNUL
  rw [Bool.or_eq_true, decide_eq_true_iff, decide_eq_true_iff, ge_iff_le, ge_iff_le,
    indexOf_nonneg_iff _ _ (by decide), indexOf_nonneg_iff _ _ (by decide)]
  have h1 : cstr "Pong".toList = "Pong".toList := by decide
  have h2 : cstr "Ping".toList = "Ping".toList := by decide
  rw [h1, h2]
  exact Or.comm

theorem markerBeforeNUL_containsMarker (msg : String) (h : MarkerBeforeNUL msg) :
    ContainsMarker msg := by
  have hpre : cstr msg.toList <+: msg.toList := List.takeWhile_prefix _
  rcases h with h | h
  · exact Or.inl (h.trans hpre.isInfix)
  · exact Or.inr (h.trans hpre.isInfix)

theorem hasMarkerAnywhere_iff (msg : String) :
    hasMarkerAnywhere msg = true ↔ ContainsMarker msg := by
  unfold hasMarkerAnywhere ContainsMarker
  rw [Bool.or_eq_true, decide_eq_true_iff, decide_eq_true_iff,
    strstrFrom_nonneg_iff _ (by decide), strstrFrom_nonneg_iff _ (by decide)]

theorem isPayload_iff (msg : String) : isPayload msg = true ↔ StartsWithBrace msg := by
  obtain ⟨l⟩ := msg
  cases l with
  | nil => simp [isPayload, StartsWithBrace, charAt, String.length, String.toList]
  | cons c cs => simp [isPayload, StartsWithBrace, charAt, String.length, String.toList]

/-! ## Lemmas on the blocks of `loop()` -/

theorem usub_self (a : Nat) : usub a a = 0 := by
  unfold usub ULONG_MOD
  omega

theorem heartbeatStep_lastUart (s : State) (p : Poll) :
    (heartbeatStep s p).state.lastUart = s.lastUart := by
  unfold heartbeatStep
  split <;> rfl

theorem heartbeatStep_uartConnected (s : State) (p : Poll) :
    (heartbeatStep s p).state.uartConnected = s.uartConnected := by
  unfold heartbeatStep
  split <;> rfl

theorem heartbeatStep_trace_subset (s : State) (p : Poll) :
    ∀ c ∈ (heartbeatStep s p).trace, c = Call.serial1Println "Ping from Mega2560" := by
  unfold heartbeatStep
  split <;> simp

theorem receiveStep_lastPing (dj : Deserializer) (s : State) (p : Poll) :
    (receiveStep dj s p).state.lastPing = s.lastPing := by
  unfold receiveStep
  split
  · rfl
  · dsimp only
    split
    · rfl
    · split
      · split <;> rfl
      · rfl

theorem receiveStep_lastUart (dj : Deserializer) (s : State) (p : Poll) :
    (receiveStep dj s p).state.lastUart = if p.line.isSome then p.tRecv else s.lastUart := by
  unfold receiveStep
  split
  · rename_i h
    simp [h]
  · rename_i raw h
    simp only [h, Option.isSome_some, if_true]
    split
    · rfl
    · split
      · split <;> rfl
      · rfl

theorem receiveStep_no_transport (dj : Deserializer) (s : State) (p : Poll) :
    ∀ c ∈ (receiveStep dj s p).trace, c.isTransportWrite = false := by
  unfold receiveStep
  split
  · simp
  · dsimp only
    split
    · simp [lcdConnected, setRGB, Call.isTransportWrite]
    · split
      · split
        · simp only [dispatchEvent]
          split_ifs <;>
            simp [lcdConnected, setRGB, displayGLCDMessage, beepAccess, beepWarning,
              beepWarningLoop, beepNotice, Call.isTransportWrite]
        · simp [dispatchParseError, setRGB, Call.isTransportWrite]
      · simp

theorem timeoutStep_lastPing (s : State) (p : Poll) :
    (timeoutStep s p).state.lastPing = s.lastPing := by
  unfold timeoutStep
  split <;> rfl

theorem timeoutStep_lastUart (s : State) (p : Poll) :
    (timeoutStep s p).state.lastUart = s.lastUart := by
  unfold timeoutStep
  split <;> rfl

theorem timeoutStep_no_transport (s : State) (p : Poll) :
    ∀ c ∈ (timeoutStep s p).trace, c.isTransportWrite = false := by
  unfold timeoutStep
  split
  · simp [dispatchDisconnected, setRGB, Call.isTransportWrite]
  · simp

theorem timeoutStep_quiet (s : State) (p : Poll)
    (h : s.uartConnected = false ∨ usub p.tCheck s.lastUart ≤ 5000) :
    timeoutStep s p = { state := s, trace := [] } := by
  unfold timeoutStep
  rcases h with h | h
  · simp [h]
  · have : ¬ usub p.tCheck s.lastUart > 5000 := by omega
    simp [this]

theorem timeoutStep_fires (s : State) (p : Poll)
    (hc : s.uartConnected = true) (hlate : 5000 < usub p.tCheck s.lastUart) :
    timeoutStep s p =
      { state := { s with uartConnected := false }, trace := dispatchDisconnected s.lastUart } := by
  unfold timeoutStep
  simp [hc, hlate]

theorem loop_lastPing (dj : Deserializer) (s : State) (p : Poll) :
    (loop dj s p).state.lastPing = (heartbeatStep s p).state.lastPing := by
  simp [loop, timeoutStep_lastPing, receiveStep_lastPing]

theorem loop_lastUart (dj : Deserializer) (s : State) (p : Poll) :
    (loop dj s p).state.lastUart = if p.line.isSome then p.tRecv else s.lastUart := by
  simp [loop, timeoutStep_lastUart, receiveStep_lastUart, heartbeatStep_lastUart]

theorem ping_mem_loop_iff (dj : Deserializer) (s : State) (p : Poll) :
    Call.serial1Println "Ping from Mega2560" ∈ (loop dj s p).trace ↔
      2000 < usub p.tPing s.lastPing := by
  have h2 := receiveStep_no_transport dj (heartbeatStep s p).state p
  have h3 := timeoutStep_no_transport (receiveStep dj (heartbeatStep s p).state p).state p
  simp only [loop, List.mem_append]
  constructor
  · rintro ((h | h) | h)
    · unfold heartbeatStep at h
      split at h
      · assumption
      · simp at h
    · exact absurd (h2 _ h) (by simp [Call.isTransportWrite])
    · exact absurd (h3 _ h) (by simp [Call.isTransportWrite])
  · intro h
    left; left
    unfold heartbeatStep
    simp [h]

theorem heartbeatStep_lastPing (s : State) (p : Poll) :
    (heartbeatStep s p).state.lastPing =
      if 2000 < usub p.tPing s.lastPing then p.tStamp else s.lastPing := by
  unfold heartbeatStep
  split <;> rfl

theorem loop_heartbeat_line (dj : Deserializer) (s : State) (p : Poll) (raw : String)
    (hline : p.line = some raw) (hmark : MarkerBeforeNUL (trim raw)) :
    receiveStep dj s p =
      { state := { s with lastUart := p.tRecv, uartConnected := true },
        trace := lcdConnected p.tRecv ++ setRGB 0 0 0 } := by
  have hb : isHeartbeat (trim raw) = true := (isHeartbeat_iff _).mpr hmark
  unfold receiveStep
  simp [hline, hb]

theorem timeoutStep_trace_subset (s : State) (p : Poll) :
    ∀ c ∈ (timeoutStep s p).trace, c ∈ dispatchDisconnected s.lastUart := by
  unfold timeoutStep
  split <;> simp

theorem receiveStep_decode_iff (dj : Deserializer) (s : State) (p : Poll) (input : String) :
    Call.deserializeJson input ∈ (receiveStep dj s p).trace ↔
      ∃ raw, p.line = some raw ∧ input = trim raw ∧
        isHeartbeat (trim raw) = false ∧ isPayload (trim raw) = true := by
  unfold receiveStep
  split
  · rename_i h
    simp [h]
  · rename_i raw h
    simp only [h, Option.some.injEq, exists_eq_left']
    by_cases hb : isHeartbeat (trim raw) = true
    · simp [hb, lcdConnected, setRGB]
    · by_cases hp : isPayload (trim raw) = true
      · simp only [hb, hp, if_true, if_false, Bool.false_eq_true]
        split
        · simp only [dispatchEvent]
          split_ifs <;>
            simp [lcdConnected, setRGB, displayGLCDMessage, beepAccess, beepWarning,
              beepWarningLoop, beepNotice, hb]
        · simp [dispatchParseError, setRGB, hb]
      · simp [hb, hp]

theorem loop_decode_iff (dj : Deserializer) (s : State) (p : Poll) (input : String) :
    Call.deserializeJson input ∈ (loop dj s p).trace ↔
      ∃ raw, p.line = some raw ∧ input = trim raw ∧
        isHeartbeat (trim raw) = false ∧ isPayload (trim raw) = true := by
  rw [← receiveStep_decode_iff dj (heartbeatStep s p).state p input]
  simp only [loop, List.mem_append]
  constructor
  · rintro ((h | h) | h)
    · have := heartbeatStep_trace_subset s p _ h
      cases this
    · exact h
    · have := timeoutStep_trace_subset _ p _ h
      simp [dispatchDisconnected, setRGB] at this
  · intro h
    exact Or.inl (Or.inr h)

theorem loop_trace_heartbeat_line (dj : Deserializer) (s : State) (p : Poll) (raw : String)
    (hline : p.line = some raw) (hmark : MarkerBeforeNUL (trim raw)) :
    ∀ c ∈ (loop dj s p).trace,
      c = Call.serial1Println "Ping from Mega2560" ∨
      c ∈ lcdConnected p.tRecv ++ setRGB 0 0 0 ∨
      c ∈ dispatchDisconnected p.tRecv := by
  intro c hc
  have hr := loop_heartbeat_line dj (heartbeatStep s p).state p raw hline hmark
  simp only [loop, hr, List.mem_append] at hc
  rcases hc with (hc | hc) | hc
  · exact Or.inl (heartbeatStep_trace_subset s p c hc)
  · exact Or.inr (Or.inl (List.mem_append.mpr hc))
  · exact Or.inr (Or.inr (timeoutStep_trace_subset _ p c hc))

theorem not_isHeartbeat_of (msg : String) (h : ¬ MarkerBeforeNUL msg) :
    isHeartbeat msg = false := by
  cases hb : isHeartbeat msg with
  | false => rfl
  | true => exact absurd ((isHeartbeat_iff msg).mp hb) h

theorem not_markerBeforeNUL_of (msg : String) (h : ¬ ContainsMarker msg) :
    ¬ MarkerBeforeNUL msg :=
  fun hm => h (markerBeforeNUL_containsMarker msg hm)

theorem not_isPayload_of (msg : String) (h : ¬ StartsWithBrace msg) :
    isPayload msg = false := by
  cases hb : isPayload msg with
  | false => rfl
  | true => exact absurd ((isPayload_iff msg).mp hb) h

theorem receiveStep_noise (dj : Deserializer) (s : State) (p : Poll) (raw : String)
    (hline : p.line = some raw) (hnm : ¬ MarkerBeforeNUL (trim raw))
    (hnb : ¬ StartsWithBrace (trim raw)) :
    receiveStep dj s p = { state := { s with lastUart := p.tRecv }, trace := [] } := by
  unfold receiveStep
  simp [hline, not_isHeartbeat_of _ hnm, not_isPayload_of _ hnb]

theorem receiveStep_parse_error (dj : Deserializer) (s : State) (p : Poll) (raw : String)
    (e : DeserializationError)
    (hline : p.line = some raw) (hnm : ¬ MarkerBeforeNUL (trim raw))
    (hbrace : StartsWithBrace (trim raw)) (herr : dj (trim raw) = .error e) :
    receiveStep dj s p =
      { state := { s with lastUart := p.tRecv },
        trace := Call.deserializeJson (trim raw) :: dispatchParseError (trim raw) } := by
  unfold receiveStep
  simp [hline, not_isHeartbeat_of _ hnm, (isPayload_iff _).mpr hbrace, herr]

theorem receiveStep_event (dj : Deserializer) (s : State) (p : Poll) (raw : String)
    (doc : JsonDocument)
    (hline : p.line = some raw) (hnm : ¬ MarkerBeforeNUL (trim raw))
    (hbrace : StartsWithBrace (trim raw)) (hok : dj (trim raw) = .ok doc) :
    receiveStep dj s p =
      { state := { s with lastUart := p.tRecv },
        trace := Call.deserializeJson (trim raw) :: dispatchEvent (trim raw) doc p.tRecv } := by
  unfold receiveStep
  simp [hline, not_isHeartbeat_of _ hnm, (isPayload_iff _).mpr hbrace, hok]

theorem precedes_append (P Q : Call → Bool) (front back : List Call)
    (hfront : ∀ c ∈ front, Q c = false) (hback : ∀ c ∈ back, P c = false) :
    Precedes P Q (front ++ back) := by
  unfold Precedes
  intro i j a b hi hj hP hQ
  by_contra hij
  by_cases hlen : i < front.length
  · have hjlen : j < front.length := by omega
    rw [List.getElem?_append_left hjlen] at hj
    have := hfront b (List.getElem?_mem hj)
    rw [this] at hQ
    cases hQ
  · rw [List.getElem?_append_right (by omega)] at hi
    have := hback a (List.getElem?_mem hi)
    rw [this] at hP
    cases hP

theorem precedes_of_no_P (P Q : Call → Bool) (tr : List Call)
    (h : ∀ c ∈ tr, P c = false) : Precedes P Q tr := by
  have := precedes_append P Q [] tr (by simp) h
  simpa using this

theorem precedes_of_no_Q (P Q : Call → Bool) (tr : List Call)
    (h : ∀ c ∈ tr, Q c = false) : Precedes P Q tr := by
  have := precedes_append P Q tr [] h (by simp)
  simpa using this

theorem isColor_exclusive (c : Call) (h : c.isColor = true) :
    c.isSound = false ∧ c.isDisplay = false := by
  cases c <;> first | exact ⟨rfl, rfl⟩ | exact absurd h (by simp [Call.isColor])

theorem isSound_exclusive (c : Call) (h : c.isSound = true) :
    c.isColor = false ∧ c.isDisplay = false := by
  cases c <;> first | exact ⟨rfl, rfl⟩ | exact absurd h (by simp [Call.isSound])

theorem isDisplay_exclusive (c : Call) (h : c.isDisplay = true) :
    c.isColor = false ∧ c.isSound = false := by
  cases c <;> first | exact ⟨rfl, rfl⟩ | exact absurd h (by simp [Call.isDisplay])

theorem strictlyOrdered_of_parts (cs ss ds : List Call)
    (hcs : ∀ c ∈ cs, c.isColor = true) (hss : ∀ c ∈ ss, c.isSound = true)
    (hds : ∀ c ∈ ds, c.isDisplay = true) : StrictlyOrdered (cs ++ ss ++ ds) := by
  have hcolor := isColor_exclusive
  have hsound := isSound_exclusive
  have hdisplay := isDisplay_exclusive
  refine ⟨?_, ?_, ?_⟩
  · rw [List.append_assoc]
    apply precedes_append
    · intro c hc
      exact (hcolor c (hcs c hc)).1
    · intro c hc
      rcases List.mem_append.mp hc with h | h
      · exact (hsound c (hss c h)).1
      · exact (hdisplay c (hds c h)).1
  · apply precedes_append
    · intro c hc
      rcases List.mem_append.mp hc with h | h
      · exact (hcolor c (hcs c h)).2
      · exact (hsound c (hss c h)).2
    · intro c hc
      exact (hdisplay c (hds c hc)).2
  · rw [List.append_assoc]
    apply precedes_append
    · intro c hc
      exact (hcolor c (hcs c hc)).2
    · intro c hc
      rcases List.mem_append.mp hc with h | h
      · exact (hsound c (hss c h)).1
      · exact (hdisplay c (hds c h)).1

theorem toNat_ne_zero_of_ne_NUL (c : Char) (h : c ≠ NUL) : c.toNat ≠ 0 := by
  intro h0
  apply h
  apply Char.ext
  apply UInt32.ext
  exact h0

theorem cmpBytes_eq_zero_iff (a b : List Char)
    (ha : ∀ c ∈ a, c ≠ NUL) (hb : ∀ c ∈ b, c ≠ NUL) : cmpBytes a b = 0 ↔ a = b := by
  induction a generalizing b with
  | nil =>
    cases b with
    | nil => simp [cmpBytes]
    | cons y ys =>
      have := toNat_ne_zero_of_ne_NUL y (hb y (by simp))
      simp only [cmpBytes]
      constructor
      · intro h; omega
      · intro h; cases h
  | cons x xs ih =>
    cases b with
    | nil =>
      have := toNat_ne_zero_of_ne_NUL x (ha x (by simp))
      simp only [cmpBytes]
      constructor
      · intro h; omega
      · intro h; cases h
    | cons y ys =>
      simp only [cmpBytes]
      by_cases hxy : x = y
      · subst hxy
        simp only [if_true, List.cons.injEq, true_and]
        exact ih ys (fun c hc => ha c (by simp [hc])) (fun c hc => hb c (by simp [hc]))
      · simp only [hxy, if_false, List.cons.injEq, false_and, iff_false]
        intro h
        apply hxy
        apply Char.ext
        apply UInt32.ext
        have : x.toNat = y.toNat := by omega
        exact this

theorem cstr_no_NUL (buf : List Char) : ∀ c ∈ cstr buf, c ≠ NUL := by
  intro c hc
  have := List.mem_takeWhile_imp hc
  simpa using this

theorem cstr_append_NUL (buf : List Char) : cstr (buf ++ [NUL]) = cstr buf := by
  unfold cstr
  induction buf with
  | nil => simp [List.takeWhile]
  | cons x xs ih =>
    by_cases hx : x = NUL
    · simp [List.takeWhile, hx]
    · simp [List.takeWhile, hx, ih]

theorem strcmp_auth_iff (auth : List Char) (hlen : auth.length = 8) :
    strcmp (auth ++ [NUL]) ("embenull".toList ++ [NUL]) = 0 ↔ auth = "embenull".toList := by
  unfold strcmp
  rw [cmpBytes_eq_zero_iff _ _ (cstr_no_NUL _) (cstr_no_NUL _), cstr_append_NUL, cstr_append_NUL]
  have hlit : cstr "embenull".toList = "embenull".toList := by decide
  rw [hlit]
  constructor
  · intro h
    have hpre : cstr auth <+: auth := List.takeWhile_prefix _
    have := hpre.eq_of_length (by rw [h, hlen]; rfl)
    rw [← this, h]
  · intro h
    rw [h, hlit]

theorem readAuth_length (eepromRead : Nat → Char) : (readAuth eepromRead).length = 8 := by
  simp [readAuth, AUTH_LEN]

theorem hasHeartbeat_iff (p : Poll) :
    p.hasHeartbeat = true ↔ ∃ raw, p.line = some raw ∧ MarkerBeforeNUL (trim raw) := by
  unfold Poll.hasHeartbeat
  cases h : p.line with
  | none => simp
  | some raw => simp [isHeartbeat_iff]

theorem receiveStep_uartConnected (dj : Deserializer) (s : State) (p : Poll) :
    (receiveStep dj s p).state.uartConnected = (s.uartConnected || p.hasHeartbeat) := by
  unfold receiveStep Poll.hasHeartbeat
  split
  · rename_i h
    simp [h]
  · rename_i raw h
    simp only [h]
    by_cases hb : isHeartbeat (trim raw) = true
    · simp [hb]
    · simp only [hb, if_false, Bool.false_eq_true]
      rw [Bool.or_false]
      split
      · split <;> rfl
      · rfl

theorem timeoutStep_uartConnected (s : State) (p : Poll) :
    (timeoutStep s p).state.uartConnected =
      (s.uartConnected && !decide (5000 < usub p.tCheck s.lastUart)) := by
  unfold timeoutStep
  by_cases hc : s.uartConnected = true
  · by_cases hl : 5000 < usub p.tCheck s.lastUart
    · simp [hc, hl]
    · simp [hc, hl]
  · have hc2 : s.uartConnected = false := by simpa using hc
    simp [hc2]

theorem loop_uartConnected (dj : Deserializer) (s : State) (p : Poll) :
    (loop dj s p).state.uartConnected =
      ((s.uartConnected || p.hasHeartbeat) &&
        !decide (5000 < usub p.tCheck (loop dj s p).state.lastUart)) := by
  have h1 : (loop dj s p).state.lastUart =
      (receiveStep dj (heartbeatStep s p).state p).state.lastUart := by
    simp [loop, timeoutStep_lastUart]
  rw [h1]
  simp only [loop]
  rw [timeoutStep_uartConnected, receiveStep_uartConnected, heartbeatStep_uartConnected]

theorem run_append_single (dj : Deserializer) (ps : List Poll) (p : Poll) :
    ∀ s : State, run dj s (ps ++ [p]) = (loop dj (run dj s ps) p).state := by
  induction ps with
  | nil => intro s; rfl
  | cons q qs ih =>
    intro s
    show run dj (loop dj s q).state (qs ++ [p]) = _
    rw [ih]
    rfl

theorem run_lastUart (dj : Deserializer) (ps : List Poll) :
    ∀ s : State, (run dj s ps).lastUart = lastLineFrom s.lastUart ps := by
  induction ps with
  | nil => intro s; rfl
  | cons q qs ih =>
    intro s
    simp only [run, lastLineFrom, List.foldl_cons]
    rw [ih, loop_lastUart]
    rfl

theorem run_connected_has_heartbeat (dj : Deserializer) (ps : List Poll) :
    ∀ s : State, (run dj s ps).uartConnected = true →
      s.uartConnected = true ∨ ∃ q ∈ ps, q.hasHeartbeat = true := by
  induction ps with
  | nil => intro s h; exact Or.inl h
  | cons q qs ih =>
    intro s h
    rcases ih (loop dj s q).state h with h1 | ⟨r, hr, hr2⟩
    · rw [loop_uartConnected] at h1
      simp only [Bool.and_eq_true, Bool.or_eq_true] at h1
      rcases h1.1 with h2 | h2
      · exact Or.inl h2
      · exact Or.inr ⟨q, by simp, h2⟩
    · exact Or.inr ⟨r, by simp [hr], hr2⟩

theorem not_containsMarker_of (msg : String) (h : hasMarkerAnywhere msg = false) :
    ¬ ContainsMarker msg := by
  intro hm
  rw [(hasMarkerAnywhere_iff msg).mpr hm] at h
  cases h

theorem not_startsWithBrace_of (msg : String) (h : isPayload msg = false) :
    ¬ StartsWithBrace msg := by
  intro hm
  rw [(isPayload_iff msg).mpr hm] at h
  cases h

/-- Where no sound is made (parse error, heartbeat line, disconnect
notification) the colour call is the last one: every display call comes before
it. -/
theorem color_after_display_without_sound (msg : String) (t : Nat) :
    Precedes Call.isDisplay Call.isColor (dispatchParseError msg) ∧
    Precedes Call.isDisplay Call.isColor (lcdConnected t ++ setRGB 0 0 0) ∧
    Precedes Call.isDisplay Call.isColor (dispatchDisconnected t) := by
  refine ⟨?_, ?_, ?_⟩
  · exact precedes_append _ _ _ (setRGB 255 0 0)
      (by simp [Call.isColor]) (by simp [setRGB, Call.isDisplay])
  · exact precedes_append _ _ (lcdConnected t) (setRGB 0 0 0)
      (by simp [lcdConnected, Call.isColor]) (by simp [setRGB, Call.isDisplay])
  · exact precedes_append _ _ _ (setRGB 255 0 0)
      (by simp [Call.isColor]) (by simp [setRGB, Call.isDisplay])

/-- For a decoded document the colour call also comes before every display
call. -/
theorem color_before_display_event (msg : String) (doc : JsonDocument) (t : Nat) :
    Precedes Call.isColor Call.isDisplay (dispatchEvent msg doc t) := by
  have hrender : ∀ c ∈ displayGLCDMessage (memberOr doc "Type") (memberOr doc "time")
        (memberOr doc "name") (memberOr doc "etc1") (memberOr doc "etc2") (memberOr doc "etc3")
        (memberOr doc "send_time") ++
      [Call.serialPrint "[ESP→GLCD] ", Call.serialPrintln msg] ++ lcdConnected t,
      c.isColor = false := by
    simp [displayGLCDMessage, lcdConnected, Call.isColor]
  simp only [dispatchEvent, List.append_assoc]
  split_ifs
  · have := precedes_append Call.isColor Call.isDisplay (setRGB 255 0 0 ++ beepAccess) _
      (by simp [setRGB, beepAccess, Call.isDisplay]) hrender
    simpa [List.append_assoc] using this
  · have := precedes_append Call.isColor Call.isDisplay (setRGB 127 255 255 ++ beepWarning) _
      (by simp [setRGB, beepWarning, beepWarningLoop, Call.isDisplay]) hrender
    simpa [List.append_assoc] using this
  · have := precedes_append Call.isColor Call.isDisplay (setRGB 255 255 0 ++ beepNotice) _
      (by simp [setRGB, beepNotice, Call.isDisplay]) hrender
    simpa [List.append_assoc] using this
  · have := precedes_append Call.isColor Call.isDisplay (setRGB 0 0 0) _
      (by simp [setRGB, Call.isDisplay]) hrender
    simpa [List.append_assoc] using this

/-- The rendering on the graphic LCD does not depend on the `time` member. -/
theorem displayGLCDMessage_ignores_time
    (typeStr timeStr timeStr2 nameStr etc1 etc2 etc3 sendTime : String) :
    displayGLCDMessage typeStr timeStr nameStr etc1 etc2 etc3 sendTime =
      displayGLCDMessage typeStr timeStr2 nameStr etc1 etc2 etc3 sendTime := rfl

theorem dispatchEvent_parts (msg : String) (doc : JsonDocument) (t : Nat) :
    ∃ cs ss ds : List Call,
      dispatchEvent msg doc t = cs ++ ss ++ ds ∧ cs ≠ [] ∧ ds ≠ [] ∧
      (∀ c ∈ cs, c.isColor = true) ∧ (∀ c ∈ ss, c.isSound = true) ∧
      (∀ c ∈ ds, c.isDisplay = true) := by
  have hds : ∀ c ∈ displayGLCDMessage (memberOr doc "Type") (memberOr doc "time")
        (memberOr doc "name") (memberOr doc "etc1") (memberOr doc "etc2") (memberOr doc "etc3")
        (memberOr doc "send_time") ++
      [Call.serialPrint "[ESP→GLCD] ", Call.serialPrintln msg] ++ lcdConnected t,
      c.isDisplay = true := by
    simp [displayGLCDMessage, lcdConnected, Call.isDisplay]
  have hne : displayGLCDMessage (memberOr doc "Type") (memberOr doc "time")
        (memberOr doc "name") (memberOr doc "etc1") (memberOr doc "etc2") (memberOr doc "etc3")
        (memberOr doc "send_time") ++
      [Call.serialPrint "[ESP→GLCD] ", Call.serialPrintln msg] ++ lcdConnected t ≠ [] := by
    simp [displayGLCDMessage]
  simp only [dispatchEvent]
  split_ifs
  · exact ⟨setRGB 255 0 0, beepAccess, _, by simp only [List.append_assoc],
      by simp [setRGB], hne, by simp [setRGB, Call.isColor],
      by simp [beepAccess, Call.isSound], hds⟩
  · exact ⟨setRGB 127 255 255, beepWarning, _, by simp only [List.append_assoc],
      by simp [setRGB], hne, by simp [setRGB, Call.isColor],
      by simp [beepWarning, beepWarningLoop, Call.isSound], hds⟩
  · exact ⟨setRGB 255 255 0, beepNotice, _, by simp only [List.append_assoc],
      by simp [setRGB], hne, by simp [setRGB, Call.isColor],
      by simp [beepNotice, Call.isSound], hds⟩
  · exact ⟨setRGB 0 0 0, [], _, by simp only [List.append_assoc, List.append_nil],
      by simp [setRGB], hne, by simp [setRGB, Call.isColor], by simp, hds⟩

/-! ## Theorems for the claims -/

/-- C6: on every pass of `loop()` the line "Ping from Mega2560" is written on the
transport link if and only if more than 2000 ms have elapsed since `lastPing`
(`millis() - lastPing > 2000`, in 32-bit unsigned arithmetic), at most once, and
then `lastPing` becomes the value `millis()` returns next (else it is kept); two
states with the same `lastPing`, whatever their connectivity flag and `lastUart`,
send the heartbeat on the same passes, for any inbound line. -/
theorem heartbeat_emission_independent_of_connectivity
    (dj : Deserializer) (s s2 : State) (p : Poll) (hsame : s2.lastPing = s.lastPing) :
    (Call.serial1Println "Ping from Mega2560" ∈ (loop dj s p).trace ↔
        2000 < usub p.tPing s.lastPing) ∧
    (∀ c ∈ (loop dj s p).trace, c.isTransportWrite = true →
        c = Call.serial1Println "Ping from Mega2560") ∧
    (loop dj s p).trace.countP Call.isTransportWrite ≤ 1 ∧
    (loop dj s p).state.lastPing =
        (if 2000 < usub p.tPing s.lastPing then p.tStamp else s.lastPing) ∧
    (Call.serial1Println "Ping from Mega2560" ∈ (loop dj s p).trace ↔
        Call.serial1Println "Ping from Mega2560" ∈ (loop dj s2 p).trace) ∧
    (loop dj s2 p).state.lastPing = (loop dj s p).state.lastPing := by
  have h2 := receiveStep_no_transport dj (heartbeatStep s p).state p
  have h3 := timeoutStep_no_transport (receiveStep dj (heartbeatStep s p).state p).state p
  refine ⟨ping_mem_loop_iff dj s p, ?_, ?_, ?_, ?_, ?_⟩
  · intro c hc ht
    simp only [loop, List.mem_append] at hc
    rcases hc with (hc | hc) | hc
    · exact heartbeatStep_trace_subset s p c hc
    · rw [h2 c hc] at ht; cases ht
    · rw [h3 c hc] at ht; cases ht
  · have e2 : (receiveStep dj (heartbeatStep s p).state p).trace.countP Call.isTransportWrite = 0 :=
      List.countP_eq_zero.mpr (fun c hc => by simp [h2 c hc])
    have e3 : (timeoutStep (receiveStep dj (heartbeatStep s p).state p).state p).trace.countP
        Call.isTransportWrite = 0 :=
      List.countP_eq_zero.mpr (fun c hc => by simp [h3 c hc])
    simp only [loop, List.countP_append, e2, e3]
    unfold heartbeatStep
    split <;> simp [Call.isTransportWrite]
  · rw [loop_lastPing, heartbeatStep_lastPing]
  · rw [ping_mem_loop_iff, ping_mem_loop_iff, hsame]
  · rw [loop_lastPing, loop_lastPing, heartbeatStep_lastPing, heartbeatStep_lastPing, hsame]

/-- Witness of C6: a Disconnected state and a Connected one with the same
`lastPing`, polled at 2001 ms with a heartbeat line waiting. -/
theorem heartbeat_emission_independent_of_connectivity_witness :
    (Call.serial1Println "Ping from Mega2560" ∈
        (loop (fun _ => .error .InvalidInput) ⟨0, 0, false⟩
          (Poll.atTime 2001 (some "Pong from ESP8266"))).trace ↔
      Call.serial1Println "Ping from Mega2560" ∈
        (loop (fun _ => .error .InvalidInput) ⟨0, 1500, true⟩
          (Poll.atTime 2001 (some "Pong from ESP8266"))).trace) :=
  (heartbeat_emission_independent_of_connectivity (fun _ => .error .InvalidInput)
    ⟨0, 0, false⟩ ⟨0, 1500, true⟩ (Poll.atTime 2001 (some "Pong from ESP8266")) rfl).2.2.2.2.1

/-- C2 fails as stated: the line made of "ab", a NUL byte and "Ping" contains
"Ping", yet received in the initial, Disconnected, state it leaves the flag
false: `indexOf` is `strstr`, which stops reading at the NUL byte. -/
theorem marker_after_NUL_does_not_connect :
    ContainsMarker (trim "ab\x00Ping") ∧
    State.init.uartConnected = false ∧
    (loop (fun _ => .error .InvalidInput) State.init
        (Poll.atTime 7000 (some "ab\x00Ping"))).state.uartConnected = false :=
  ⟨(hasMarkerAnywhere_iff _).mp (by decide), rfl, by decide⟩

/-- C2 as amended: a pass of `loop()` that receives a line whose trimmed text
contains "Ping" or "Pong" ahead of any NUL byte ends Connected, whatever the
state before (Disconnected in particular), with `lastUart` equal to the receipt
time; the timeout check of the same pass is assumed to read the clock at most
5000 ms after the receipt. -/
theorem heartbeat_line_connects
    (dj : Deserializer) (s : State) (p : Poll) (raw : String)
    (hline : p.line = some raw) (hmark : MarkerBeforeNUL (trim raw))
    (hfast : usub p.tCheck p.tRecv ≤ 5000) :
    (loop dj s p).state.uartConnected = true ∧ (loop dj s p).state.lastUart = p.tRecv := by
  have hr := loop_heartbeat_line dj (heartbeatStep s p).state p raw hline hmark
  constructor
  · simp only [loop, hr]
    rw [timeoutStep_quiet _ _ (Or.inr hfast)]
  · rw [loop_lastUart, hline]
    rfl

/-- Witness of C2 as amended: "Pong from peer" received at 7000 ms in the
initial, Disconnected, state. -/
theorem heartbeat_line_connects_witness :
    State.init.uartConnected = false ∧
    (loop (fun _ => .error .InvalidInput) State.init
        (Poll.atTime 7000 (some "Pong from peer\r"))).state.uartConnected = true ∧
    (loop (fun _ => .error .InvalidInput) State.init
        (Poll.atTime 7000 (some "Pong from peer\r"))).state.lastUart = 7000 :=
  ⟨rfl, heartbeat_line_connects (fun _ => .error .InvalidInput) State.init
    (Poll.atTime 7000 (some "Pong from peer\r")) "Pong from peer\r" rfl
    ((isHeartbeat_iff _).mp (by decide)) (by decide)⟩

/-- C10 fails as stated: the line made of an opening brace, a NUL byte, "Ping"
and a closing brace contains "Ping", yet `loop()` hands it to the payload
parser: `indexOf` is `strstr`, which stops reading at the NUL byte. -/
theorem marker_after_NUL_is_decoded :
    ContainsMarker (trim "\x7b\x00Ping\x7d") ∧
    Call.deserializeJson (trim "\x7b\x00Ping\x7d") ∈
      (loop (fun _ => .error .InvalidInput) State.init
        (Poll.atTime 100 (some "\x7b\x00Ping\x7d"))).trace :=
  ⟨(hasMarkerAnywhere_iff _).mp (by decide), by decide⟩

/-- C10 as amended: the heartbeat test comes first.  A pass of `loop()` that
receives a line whose trimmed text contains "Ping" or "Pong" ahead of any NUL
byte, a line starting with an opening brace included, makes after the heartbeat
block exactly the calls of the status lines of the LCD and `setRGB(0, 0, 0)`,
followed by nothing or by the disconnect notification; so it calls the payload
parser on nothing, makes no sound call and no `displayGLCDMessage` rendering.
The payload parser is called exactly when the trimmed line has no marker ahead
of any NUL byte and starts with an opening brace, and then on the trimmed
line. -/
theorem heartbeat_classification_precedes_parsing
    (dj : Deserializer) (s : State) (p : Poll) (raw : String) (hline : p.line = some raw) :
    (MarkerBeforeNUL (trim raw) →
      (∃ post : List Call,
        (loop dj s p).trace = (heartbeatStep s p).trace ++
          [Call.lcdClear, Call.lcdSetCursor 0 0, Call.lcdPrint "UART: Connected",
           Call.lcdSetCursor 0 1, Call.lcdPrint "Last: ", Call.lcdPrintNum (p.tRecv / 1000),
           Call.lcdPrint "s",
           Call.analogWrite 8 0, Call.analogWrite 7 0, Call.analogWrite 6 0] ++ post ∧
        (post = [] ∨ post =
          [Call.lcdClear, Call.lcdSetCursor 0 0, Call.lcdPrint "UART Disconnected",
           Call.lcdSetCursor 0 1, Call.lcdPrint "Last: ", Call.lcdPrintNum (p.tRecv / 1000),
           Call.lcdPrint "s",
           Call.glcdClearScreen, Call.glcdGotoXY 0 0, Call.glcdPrint "UART Disconnected",
           Call.analogWrite 8 255, Call.analogWrite 7 0, Call.analogWrite 6 0])) ∧
      (∀ input, Call.deserializeJson input ∉ (loop dj s p).trace) ∧
      (∀ c ∈ (loop dj s p).trace, c.isSound = false) ∧
      (∀ t tm n e1 e2 e3 st,
        ¬ displayGLCDMessage t tm n e1 e2 e3 st <:+: (loop dj s p).trace)) ∧
    ((∃ input, Call.deserializeJson input ∈ (loop dj s p).trace) ↔
      (¬ MarkerBeforeNUL (trim raw) ∧ StartsWithBrace (trim raw))) ∧
    (∀ input, Call.deserializeJson input ∈ (loop dj s p).trace → input = trim raw) := by
  refine ⟨?_, ?_, ?_⟩
  · intro hmark
    have hb : isHeartbeat (trim raw) = true := (isHeartbeat_iff _).mpr hmark
    have hall := loop_trace_heartbeat_line dj s p raw hline hmark
    refine ⟨?_, ?_, ?_, ?_⟩
    · have hr := loop_heartbeat_line dj (heartbeatStep s p).state p raw hline hmark
      refine ⟨(timeoutStep (receiveStep dj (heartbeatStep s p).state p).state p).trace, ?_, ?_⟩
      · simp only [loop, hr]
        rfl
      · rw [hr]
        unfold timeoutStep
        split
        · right; rfl
        · left; rfl
    · intro input hin
      rw [loop_decode_iff] at hin
      obtain ⟨raw2, h1, _, h3, _⟩ := hin
      rw [hline] at h1
      cases h1
      rw [hb] at h3
      cases h3
    · intro c hc
      rcases hall c hc with h | h | h
      · subst h; rfl
      · simp [lcdConnected, setRGB] at h
        rcases h with h | h | h | h | h | h | h | h | h | h <;> subst h <;> rfl
      · simp [dispatchDisconnected, setRGB] at h
        rcases h with h | h | h | h | h | h | h | h | h | h | h | h | h <;> subst h <;> rfl
    · intro t tm n e1 e2 e3 st hinf
      have hmem : Call.glcdSelectFont ∈ (loop dj s p).trace :=
        hinf.subset (by simp [displayGLCDMessage])
      rcases hall _ hmem with h | h | h
      · cases h
      · simp [lcdConnected, setRGB] at h
      · simp [dispatchDisconnected, setRGB] at h
  · rw [← isHeartbeat_iff, ← isPayload_iff]
    constructor
    · rintro ⟨input, hin⟩
      rw [loop_decode_iff] at hin
      obtain ⟨raw2, h1, _, h3, h4⟩ := hin
      rw [hline] at h1
      cases h1
      exact ⟨by simp [h3], h4⟩
    · rintro ⟨h3, h4⟩
      refine ⟨trim raw, ?_⟩
      rw [loop_decode_iff]
      exact ⟨raw, hline, rfl, by simpa using h3, h4⟩
  · intro input hin
    rw [loop_decode_iff] at hin
    obtain ⟨raw2, h1, h2, _, _⟩ := hin
    rw [hline] at h1
    cases h1
    exact h2

/-- Witness of C10 as amended: a payload whose `name` member is "Ping", received
in the initial state: it starts with an opening brace, yet no decoder call is
made. -/
theorem heartbeat_classification_precedes_parsing_witness :
    StartsWithBrace (trim "\x7b\"name\":\"Ping\"\x7d") ∧
    MarkerBeforeNUL (trim "\x7b\"name\":\"Ping\"\x7d") ∧
    (¬ ∃ input, Call.deserializeJson input ∈
      (loop (fun _ => .ok [("name", .str "Ping")]) State.init
        (Poll.atTime 100 (some "\x7b\"name\":\"Ping\"\x7d"))).trace) ∧
    (∀ c ∈ (loop (fun _ => .ok [("name", .str "Ping")]) State.init
        (Poll.atTime 100 (some "\x7b\"name\":\"Ping\"\x7d"))).trace, c.isSound = false) :=
  ⟨(isPayload_iff _).mp (by decide), (isHeartbeat_iff _).mp (by decide),
    fun h => ((heartbeat_classification_precedes_parsing (fun _ => .ok [("name", .str "Ping")])
      State.init (Poll.atTime 100 (some "\x7b\"name\":\"Ping\"\x7d")) _ rfl).2.1.mp h).1
      ((isHeartbeat_iff _).mp (by decide)),
    ((heartbeat_classification_precedes_parsing (fun _ => .ok [("name", .str "Ping")])
      State.init (Poll.atTime 100 (some "\x7b\"name\":\"Ping\"\x7d")) _ rfl).1
      ((isHeartbeat_iff _).mp (by decide))).2.2.1⟩

/-- C7: a pass of `loop()` that receives a line starting with an opening brace,
containing neither "Ping" nor "Pong", on which `deserializeJson` reports an
error, makes, after the heartbeat block, exactly these calls: the decoder call,
the fixed message "JSON Parse Error" on the LCD, the label and the offending
line on the console, and `setRGB(255, 0, 0)`.  There is no sound call and no
`displayGLCDMessage` rendering, and the connectivity flag and `lastPing` are as
the heartbeat block left them.  The timeout check of the same pass is assumed to
read the clock at most 5000 ms after the receipt. -/
theorem parse_error_dispatch
    (dj : Deserializer) (s : State) (p : Poll) (raw : String) (e : DeserializationError)
    (hline : p.line = some raw) (hnm : ¬ ContainsMarker (trim raw))
    (hbrace : StartsWithBrace (trim raw)) (herr : dj (trim raw) = .error e)
    (hfast : usub p.tCheck p.tRecv ≤ 5000) :
    (loop dj s p).trace = (heartbeatStep s p).trace ++
      [Call.deserializeJson (trim raw),
       Call.lcdClear, Call.lcdSetCursor 0 0, Call.lcdPrint "JSON Parse Error",
       Call.serialPrint "[ERROR] JSON Parse: ", Call.serialPrintln (trim raw),
       Call.analogWrite 8 255, Call.analogWrite 7 0, Call.analogWrite 6 0] ∧
    (∀ c ∈ (loop dj s p).trace, c.isSound = false) ∧
    (∀ t tm n e1 e2 e3 st,
      ¬ displayGLCDMessage t tm n e1 e2 e3 st <:+: (loop dj s p).trace) ∧
    (loop dj s p).state.uartConnected = s.uartConnected ∧
    (loop dj s p).state.lastPing = (heartbeatStep s p).state.lastPing := by
  have hr := receiveStep_parse_error dj (heartbeatStep s p).state p raw e hline
    (not_markerBeforeNUL_of _ hnm) hbrace herr
  have htr : (loop dj s p).trace = (heartbeatStep s p).trace ++
      [Call.deserializeJson (trim raw),
       Call.lcdClear, Call.lcdSetCursor 0 0, Call.lcdPrint "JSON Parse Error",
       Call.serialPrint "[ERROR] JSON Parse: ", Call.serialPrintln (trim raw),
       Call.analogWrite 8 255, Call.analogWrite 7 0, Call.analogWrite 6 0] := by
    simp only [loop, hr]
    rw [timeoutStep_quiet _ _ (Or.inr hfast)]
    simp [dispatchParseError, setRGB, RGB_LED]
  refine ⟨htr, ?_, ?_, ?_, loop_lastPing dj s p⟩
  · intro c hc
    rw [htr, List.mem_append] at hc
    rcases hc with hc | hc
    · rw [heartbeatStep_trace_subset s p c hc]; rfl
    · simp at hc
      rcases hc with h | h | h | h | h | h | h | h | h <;> subst h <;> rfl
  · intro t tm n e1 e2 e3 st hinf
    have hmem : Call.glcdSelectFont ∈ (loop dj s p).trace :=
      hinf.subset (by simp [displayGLCDMessage])
    rw [htr, List.mem_append] at hmem
    rcases hmem with h | h
    · have := heartbeatStep_trace_subset s p _ h
      cases this
    · simp at h
  · simp only [loop, hr]
    rw [timeoutStep_quiet _ _ (Or.inr hfast)]
    exact heartbeatStep_uartConnected s p

/-- Witness of C7: the line "{not json", rejected by the decoder, received at
3000 ms in a Connected state. -/
theorem parse_error_dispatch_witness :
    (loop (fun _ => .error .InvalidInput) ⟨2000, 2500, true⟩
        (Poll.atTime 3000 (some "\x7bnot json\r"))).trace =
      (heartbeatStep ⟨2000, 2500, true⟩ (Poll.atTime 3000 (some "\x7bnot json\r"))).trace ++
      [Call.deserializeJson (trim "\x7bnot json\r"),
       Call.lcdClear, Call.lcdSetCursor 0 0, Call.lcdPrint "JSON Parse Error",
       Call.serialPrint "[ERROR] JSON Parse: ", Call.serialPrintln (trim "\x7bnot json\r"),
       Call.analogWrite 8 255, Call.analogWrite 7 0, Call.analogWrite 6 0] ∧
    (loop (fun _ => .error .InvalidInput) ⟨2000, 2500, true⟩
        (Poll.atTime 3000 (some "\x7bnot json\r"))).state.uartConnected = true :=
  ⟨(parse_error_dispatch (fun _ => .error .InvalidInput) ⟨2000, 2500, true⟩
      (Poll.atTime 3000 (some "\x7bnot json\r")) "\x7bnot json\r" .InvalidInput rfl
      (not_containsMarker_of _ (by decide)) ((isPayload_iff _).mp (by decide)) rfl
      (by decide)).1,
   (parse_error_dispatch (fun _ => .error .InvalidInput) ⟨2000, 2500, true⟩
      (Poll.atTime 3000 (some "\x7bnot json\r")) "\x7bnot json\r" .InvalidInput rfl
      (not_containsMarker_of _ (by decide)) ((isPayload_iff _).mp (by decide)) rfl
      (by decide)).2.2.2.1⟩

/-- C5 fails as stated: the noise line "WiFi Connected", received at 3000 ms in a
state whose `lastUart` is 1000, leaves `lastUart` equal to 3000. -/
theorem noise_line_changes_lastUart :
    ¬ ContainsMarker (trim "WiFi Connected") ∧
    ¬ StartsWithBrace (trim "WiFi Connected") ∧
    (loop (fun _ => .error .InvalidInput) ⟨2000, 1000, true⟩
        (Poll.atTime 3000 (some "WiFi Connected"))).state.lastUart = 3000 ∧
    (loop (fun _ => .error .InvalidInput) ⟨2000, 1000, true⟩
        (Poll.atTime 3000 (some "WiFi Connected"))).state.lastUart ≠
      (⟨2000, 1000, true⟩ : State).lastUart :=
  ⟨not_containsMarker_of _ (by decide), not_startsWithBrace_of _ (by decide),
    by decide, by decide⟩

/-- C5 as amended: a pass of `loop()` that receives a line which, trimmed, neither
contains "Ping" or "Pong" nor starts with an opening brace (the empty line
included) makes no colour, sound or display call and no decoder call, and keeps
the connectivity flag; `lastUart` becomes the receipt time.  The timeout check
of the same pass is assumed to read the clock at most 5000 ms after the
receipt. -/
theorem noise_line_is_silent
    (dj : Deserializer) (s : State) (p : Poll) (raw : String)
    (hline : p.line = some raw) (hnm : ¬ ContainsMarker (trim raw))
    (hnb : ¬ StartsWithBrace (trim raw)) (hfast : usub p.tCheck p.tRecv ≤ 5000) :
    (∀ c ∈ (loop dj s p).trace,
      c.isColor = false ∧ c.isSound = false ∧ c.isDisplay = false ∧ c.isDecode = false) ∧
    (loop dj s p).state.uartConnected = s.uartConnected ∧
    (loop dj s p).state.lastUart = p.tRecv := by
  have hr := receiveStep_noise dj (heartbeatStep s p).state p raw hline
    (not_markerBeforeNUL_of _ hnm) hnb
  refine ⟨?_, ?_, ?_⟩
  · intro c hc
    simp only [loop, hr] at hc
    rw [timeoutStep_quiet _ _ (Or.inr hfast)] at hc
    simp only [List.append_nil] at hc
    rw [heartbeatStep_trace_subset s p c hc]
    exact ⟨rfl, rfl, rfl, rfl⟩
  · simp only [loop, hr]
    rw [timeoutStep_quiet _ _ (Or.inr hfast)]
    exact heartbeatStep_uartConnected s p
  · rw [loop_lastUart, hline]
    rfl

/-- Witness of C5 as amended: a line of blanks, empty once trimmed, received at
3000 ms in a Connected state. -/
theorem noise_line_is_silent_witness :
    trim "  \r" = "" ∧
    (∀ c ∈ (loop (fun _ => .error .InvalidInput) ⟨2000, 1000, true⟩
        (Poll.atTime 3000 (some "  \r"))).trace,
      c.isColor = false ∧ c.isSound = false ∧ c.isDisplay = false ∧ c.isDecode = false) ∧
    (loop (fun _ => .error .InvalidInput) ⟨2000, 1000, true⟩
        (Poll.atTime 3000 (some "  \r"))).state.uartConnected = true ∧
    (loop (fun _ => .error .InvalidInput) ⟨2000, 1000, true⟩
        (Poll.atTime 3000 (some "  \r"))).state.lastUart = 3000 :=
  ⟨by decide,
   noise_line_is_silent (fun _ => .error .InvalidInput) ⟨2000, 1000, true⟩
    (Poll.atTime 3000 (some "  \r")) "  \r" rfl
    (not_containsMarker_of _ (by decide)) (not_startsWithBrace_of _ (by decide)) (by decide)⟩

/-- C3 fails as stated: for the line
`{"Type":"access","time":"12:00","name":"Alice"}`, decoded to its three members,
the `name` member is printed on the graphic LCD but no display call prints the
`time` member: `displayGLCDMessage` receives it and never prints it. -/
theorem time_member_not_rendered :
    memberOr [("Type", .str "access"), ("time", .str "12:00"), ("name", .str "Alice")] "time"
      = "12:00" ∧
    Call.glcdPrint "Alice" ∈
      (loop (fun _ => .ok [("Type", .str "access"), ("time", .str "12:00"),
          ("name", .str "Alice")]) State.init
        (Poll.atTime 100
          (some "\x7b\"Type\":\"access\",\"time\":\"12:00\",\"name\":\"Alice\"\x7d"))).trace ∧
    (∀ c ∈ (loop (fun _ => .ok [("Type", .str "access"), ("time", .str "12:00"),
          ("name", .str "Alice")]) State.init
        (Poll.atTime 100
          (some "\x7b\"Type\":\"access\",\"time\":\"12:00\",\"name\":\"Alice\"\x7d"))).trace,
      c ≠ Call.glcdPrint "12:00" ∧ c ≠ Call.lcdPrint "12:00" ∧
      c ≠ Call.serialPrint "12:00" ∧ c ≠ Call.serialPrintln "12:00") := by
  decide

/-- C3 as amended: a pass of `loop()` that receives a payload line (starting with
an opening brace, no "Ping" or "Pong" ahead of a NUL byte) which
`deserializeJson` decodes makes, after the heartbeat block and the decoder call,
a colour-and-sound part fixed by the `Type` member alone, then the same
rendering in every case.  The table: "access" gives red (255, 0, 0) on the pins
R, G, B and the two notes of the access chime; "deaccess" gives (127, 255, 255)
and three warning tones; "notice" gives (255, 255, 0) and one tone; any other
`Type`, an absent one included, gives (0, 0, 0) and no sound call.  The rendering
prints `Type`, `name`, `etc1`, `etc2`, `etc3` and `send_time` on the graphic LCD,
then echoes the line on the console and writes the status lines of the LCD.  The
timeout check of the same pass is assumed to read the clock at most 5000 ms
after the receipt. -/
theorem event_dispatch_table
    (dj : Deserializer) (s : State) (p : Poll) (raw : String) (doc : JsonDocument)
    (hline : p.line = some raw) (hnm : ¬ MarkerBeforeNUL (trim raw))
    (hbrace : StartsWithBrace (trim raw)) (hok : dj (trim raw) = .ok doc)
    (hfast : usub p.tCheck p.tRecv ≤ 5000) :
    ∃ colorAndSound : List Call,
      (loop dj s p).trace =
        (heartbeatStep s p).trace ++ [Call.deserializeJson (trim raw)] ++
        colorAndSound ++
        [Call.glcdClearScreen, Call.glcdSelectFont,
         Call.glcdGotoXY 0 0, Call.glcdPrint "Type: ", Call.glcdPrint (memberOr doc "Type"),
         Call.glcdGotoXY 0 8, Call.glcdPrint "name: ", Call.glcdPrint (memberOr doc "name"),
         Call.glcdGotoXY 0 16, Call.glcdPrint "Delivery message",
         Call.glcdGotoXY 0 24, Call.glcdPrint (memberOr doc "etc1"),
         Call.glcdGotoXY 0 32, Call.glcdPrint (memberOr doc "etc2"),
         Call.glcdGotoXY 0 40, Call.glcdPrint (memberOr doc "etc3"),
         Call.glcdGotoXY 0 56, Call.glcdPrint "보낸시각: ",
         Call.glcdPrint (memberOr doc "send_time"),
         Call.serialPrint "[ESP→GLCD] ", Call.serialPrintln (trim raw),
         Call.lcdClear, Call.lcdSetCursor 0 0, Call.lcdPrint "UART: Connected",
         Call.lcdSetCursor 0 1, Call.lcdPrint "Last: ", Call.lcdPrintNum (p.tRecv / 1000),
         Call.lcdPrint "s"] ∧
      (memberOr doc "Type" = "access" → colorAndSound =
        [Call.analogWrite 8 255, Call.analogWrite 7 0, Call.analogWrite 6 0,
         Call.tone 57 Note.NOTE_C5 320, Call.delay 150,
         Call.tone 57 Note.NOTE_E5 320, Call.delay 150, Call.noTone 57]) ∧
      (memberOr doc "Type" = "deaccess" → colorAndSound =
        [Call.analogWrite 8 127, Call.analogWrite 7 255, Call.analogWrite 6 255,
         Call.tone 57 Note.NOTE_DS5 300, Call.delay 120, Call.noTone 57, Call.delay 100,
         Call.tone 57 Note.NOTE_DS5 300, Call.delay 120, Call.noTone 57, Call.delay 100,
         Call.tone 57 Note.NOTE_DS5 300, Call.delay 120, Call.noTone 57, Call.delay 100]) ∧
      (memberOr doc "Type" = "notice" → colorAndSound =
        [Call.analogWrite 8 255, Call.analogWrite 7 255, Call.analogWrite 6 0,
         Call.tone 57 Note.NOTE_G5 380, Call.delay 100, Call.noTone 57]) ∧
      (memberOr doc "Type" ≠ "access" → memberOr doc "Type" ≠ "deaccess" →
        memberOr doc "Type" ≠ "notice" → colorAndSound =
        [Call.analogWrite 8 0, Call.analogWrite 7 0, Call.analogWrite 6 0]) ∧
      (doc.lookup "Type" = none → colorAndSound =
        [Call.analogWrite 8 0, Call.analogWrite 7 0, Call.analogWrite 6 0]) := by
  have hr := receiveStep_event dj (heartbeatStep s p).state p raw doc hline hnm hbrace hok
  have hnone : doc.lookup "Type" = none → memberOr doc "Type" = "" := by
    intro h
    simp [memberOr, h]
  have htr : (loop dj s p).trace =
      (heartbeatStep s p).trace ++ [Call.deserializeJson (trim raw)] ++
        dispatchEvent (trim raw) doc p.tRecv := by
    simp only [loop, hr]
    rw [timeoutStep_quiet _ _ (Or.inr hfast)]
    simp
  refine ⟨if memberOr doc "Type" = "access" then setRGB 255 0 0 ++ beepAccess
      else if memberOr doc "Type" = "deaccess" then setRGB 127 255 255 ++ beepWarning
      else if memberOr doc "Type" = "notice" then setRGB 255 255 0 ++ beepNotice
      else setRGB 0 0 0, ?_, ?_, ?_, ?_, ?_, ?_⟩
  · rw [htr]
    simp only [dispatchEvent, displayGLCDMessage, lcdConnected, List.append_assoc,
      List.cons_append, List.nil_append]
  · intro h
    simp [h, setRGB, beepAccess, RGB_LED, SPEAKER_PIN]
  · intro h
    simp [h, setRGB, beepWarning, beepWarningLoop, RGB_LED, SPEAKER_PIN]
  · intro h
    simp [h, setRGB, beepNotice, RGB_LED, SPEAKER_PIN]
  · intro h1 h2 h3
    simp [h1, h2, h3, setRGB, RGB_LED]
  · intro h
    simp [hnone h, setRGB, RGB_LED]

/-- Witness of C3 as amended: the line `{"Type":"access","name":"Alice"}`, decoded
to its two members: red, the access chime, and "Alice" on the graphic LCD. -/
theorem event_dispatch_table_witness :
    ∃ colorAndSound : List Call,
      colorAndSound =
        [Call.analogWrite 8 255, Call.analogWrite 7 0, Call.analogWrite 6 0,
         Call.tone 57 Note.NOTE_C5 320, Call.delay 150,
         Call.tone 57 Note.NOTE_E5 320, Call.delay 150, Call.noTone 57] ∧
      (loop (fun _ => .ok [("Type", .str "access"), ("name", .str "Alice")]) State.init
          (Poll.atTime 100 (some "\x7b\"Type\":\"access\",\"name\":\"Alice\"\x7d\r"))).trace =
        [Call.deserializeJson "\x7b\"Type\":\"access\",\"name\":\"Alice\"\x7d"] ++
        colorAndSound ++
        [Call.glcdClearScreen, Call.glcdSelectFont,
         Call.glcdGotoXY 0 0, Call.glcdPrint "Type: ", Call.glcdPrint "access",
         Call.glcdGotoXY 0 8, Call.glcdPrint "name: ", Call.glcdPrint "Alice",
         Call.glcdGotoXY 0 16, Call.glcdPrint "Delivery message",
         Call.glcdGotoXY 0 24, Call.glcdPrint "",
         Call.glcdGotoXY 0 32, Call.glcdPrint "",
         Call.glcdGotoXY 0 40, Call.glcdPrint "",
         Call.glcdGotoXY 0 56, Call.glcdPrint "보낸시각: ", Call.glcdPrint "",
         Call.serialPrint "[ESP→GLCD] ",
         Call.serialPrintln "\x7b\"Type\":\"access\",\"name\":\"Alice\"\x7d",
         Call.lcdClear, Call.lcdSetCursor 0 0, Call.lcdPrint "UART: Connected",
         Call.lcdSetCursor 0 1, Call.lcdPrint "Last: ", Call.lcdPrintNum (100 / 1000),
         Call.lcdPrint "s"] := by
  obtain ⟨cs, h1, h2, _, _, _, _⟩ :=
    event_dispatch_table (fun _ => .ok [("Type", .str "access"), ("name", .str "Alice")])
      State.init (Poll.atTime 100 (some "\x7b\"Type\":\"access\",\"name\":\"Alice\"\x7d\r"))
      "\x7b\"Type\":\"access\",\"name\":\"Alice\"\x7d\r"
      [("Type", .str "access"), ("name", .str "Alice")] rfl
      (fun h => absurd ((isHeartbeat_iff _).mpr h) (by decide))
      ((isPayload_iff _).mp (by decide)) rfl (by decide)
  exact ⟨cs, h2 (by decide), h1⟩

/-- C9 fails as stated: the heartbeat line "Pong from ESP8266", received in the
initial state, makes `loop()` write the status lines of the LCD first and set
the colour last, so the colour call does not precede the display updates. -/
theorem colour_set_after_display_on_heartbeat :
    (loop (fun _ => .error .InvalidInput) State.init
        (Poll.atTime 100 (some "Pong from ESP8266"))).trace =
      [Call.lcdClear, Call.lcdSetCursor 0 0, Call.lcdPrint "UART: Connected",
       Call.lcdSetCursor 0 1, Call.lcdPrint "Last: ", Call.lcdPrintNum 0, Call.lcdPrint "s",
       Call.analogWrite 8 0, Call.analogWrite 7 0, Call.analogWrite 6 0] ∧
    ¬ StrictlyOrdered
      (loop (fun _ => .error .InvalidInput) State.init
        (Poll.atTime 100 (some "Pong from ESP8266"))).trace := by
  refine ⟨by decide, ?_⟩
  intro h
  have h70 := h.2.2 7 0 (Call.analogWrite 8 0) Call.lcdClear (by decide) (by decide) rfl rfl
  omega

/-- C9 as amended: the calls of a pass of `loop()` are those of the heartbeat
block, of the receive block and of the timeout block, in that order.  For a
decoded document of any `Type` the receive block makes, after the decoder call,
the colour calls first, then the sound calls (none for an unknown or absent
`Type`), then the display calls, so that its side effects are strictly ordered
colour, sound, display.  For a parse error and for a heartbeat line the receive
block makes display calls first and the colour calls last, with no sound call;
so does the timeout block for the disconnect notification. -/
theorem side_effects_order_by_dispatch (dj : Deserializer) (s : State) (p : Poll) :
    (loop dj s p).trace =
      (heartbeatStep s p).trace ++ (receiveStep dj (heartbeatStep s p).state p).trace ++
      (timeoutStep (receiveStep dj (heartbeatStep s p).state p).state p).trace ∧
    (∀ raw doc, p.line = some raw → ¬ MarkerBeforeNUL (trim raw) →
      StartsWithBrace (trim raw) → dj (trim raw) = .ok doc →
      ∃ cs ss ds : List Call,
        (receiveStep dj s p).trace = Call.deserializeJson (trim raw) :: (cs ++ ss ++ ds) ∧
        cs ≠ [] ∧ ds ≠ [] ∧
        (∀ c ∈ cs, c.isColor = true) ∧ (∀ c ∈ ss, c.isSound = true) ∧
        (∀ c ∈ ds, c.isDisplay = true) ∧
        StrictlyOrdered (cs ++ ss ++ ds)) ∧
    (∀ raw e, p.line = some raw → ¬ MarkerBeforeNUL (trim raw) →
      StartsWithBrace (trim raw) → dj (trim raw) = .error e →
      ∃ ds cs : List Call,
        (receiveStep dj s p).trace = Call.deserializeJson (trim raw) :: (ds ++ cs) ∧
        ds ≠ [] ∧ cs ≠ [] ∧
        (∀ c ∈ ds, c.isDisplay = true) ∧ (∀ c ∈ cs, c.isColor = true)) ∧
    (∀ raw, p.line = some raw → MarkerBeforeNUL (trim raw) →
      ∃ ds cs : List Call,
        (receiveStep dj s p).trace = ds ++ cs ∧
        ds ≠ [] ∧ cs ≠ [] ∧
        (∀ c ∈ ds, c.isDisplay = true) ∧ (∀ c ∈ cs, c.isColor = true)) ∧
    (s.uartConnected = true → 5000 < usub p.tCheck s.lastUart →
      ∃ ds cs : List Call,
        (timeoutStep s p).trace = ds ++ cs ∧
        ds ≠ [] ∧ cs ≠ [] ∧
        (∀ c ∈ ds, c.isDisplay = true) ∧ (∀ c ∈ cs, c.isColor = true)) := by
  refine ⟨rfl, ?_, ?_, ?_, ?_⟩
  · intro raw doc hline hnm hbrace hok
    rw [receiveStep_event dj s p raw doc hline hnm hbrace hok]
    obtain ⟨cs, ss, ds, h1, h2, h3, h4, h5, h6⟩ := dispatchEvent_parts (trim raw) doc p.tRecv
    exact ⟨cs, ss, ds, by simp only [h1], h2, h3, h4, h5, h6,
      strictlyOrdered_of_parts cs ss ds h4 h5 h6⟩
  · intro raw e hline hnm hbrace herr
    rw [receiveStep_parse_error dj s p raw e hline hnm hbrace herr]
    exact ⟨[Call.lcdClear, Call.lcdSetCursor 0 0, Call.lcdPrint "JSON Parse Error",
        Call.serialPrint "[ERROR] JSON Parse: ", Call.serialPrintln (trim raw)],
      setRGB 255 0 0, rfl, by simp, by simp [setRGB], by simp [Call.isDisplay],
      by simp [setRGB, Call.isColor]⟩
  · intro raw hline hmark
    rw [loop_heartbeat_line dj s p raw hline hmark]
    exact ⟨lcdConnected p.tRecv, setRGB 0 0 0, rfl, by simp [lcdConnected], by simp [setRGB],
      by simp [lcdConnected, Call.isDisplay], by simp [setRGB, Call.isColor]⟩
  · intro hc hlate
    rw [timeoutStep_fires s p hc hlate]
    exact ⟨[Call.lcdClear, Call.lcdSetCursor 0 0, Call.lcdPrint "UART Disconnected",
        Call.lcdSetCursor 0 1, Call.lcdPrint "Last: ", Call.lcdPrintNum (s.lastUart / 1000),
        Call.lcdPrint "s",
        Call.glcdClearScreen, Call.glcdGotoXY 0 0, Call.glcdPrint "UART Disconnected"],
      setRGB 255 0 0, rfl, by simp, by simp [setRGB], by simp [Call.isDisplay],
      by simp [setRGB, Call.isColor]⟩

/-- Witness of C9 as amended: the line `{"Type":"notice"}`, decoded to its one
member, received in the initial state: colour, then one tone, then display. -/
theorem side_effects_order_by_dispatch_witness :
    ∃ cs ss ds : List Call,
      (receiveStep (fun _ => .ok [("Type", .str "notice")]) State.init
        (Poll.atTime 100 (some "\x7b\"Type\":\"notice\"\x7d"))).trace =
        Call.deserializeJson (trim "\x7b\"Type\":\"notice\"\x7d") :: (cs ++ ss ++ ds) ∧
      cs ≠ [] ∧ ds ≠ [] ∧
      (∀ c ∈ cs, c.isColor = true) ∧ (∀ c ∈ ss, c.isSound = true) ∧
      (∀ c ∈ ds, c.isDisplay = true) ∧
      StrictlyOrdered (cs ++ ss ++ ds) :=
  (side_effects_order_by_dispatch (fun _ => .ok [("Type", .str "notice")]) State.init
    (Poll.atTime 100 (some "\x7b\"Type\":\"notice\"\x7d"))).2.1
    "\x7b\"Type\":\"notice\"\x7d" [("Type", .str "notice")] rfl
    (fun h => absurd ((isHeartbeat_iff _).mpr h) (by decide))
    ((isPayload_iff _).mp (by decide)) rfl

/-- C8: the startup gate.  When the `AUTH_LEN` bytes read from the EEPROM are not
exactly "embenull", `setup()` never returns, writes nothing on the transport
link, prints "Auth Failed" on both displays and ends with `setRGB(255, 0, 0)`;
the sketch then makes no call beyond those of `setup()`, whatever arrives
later: `loop()` is not entered, no heartbeat is sent, no line is decoded.  When the
bytes are exactly "embenull", `setup()` writes "CONNECT" on the transport link
and returns, and the passes of `loop()` follow. -/
theorem startup_gate (eepromRead : Nat → Char) (dj : Deserializer) (polls : List Poll) :
    (readAuth eepromRead ≠ "embenull".toList →
      (setup eepromRead).1 = Outcome.halted ∧
      (∀ c ∈ (setup eepromRead).2, c.isTransportWrite = false) ∧
      Call.lcdPrint "Auth Failed" ∈ (setup eepromRead).2 ∧
      Call.glcdPrint "Auth Failed" ∈ (setup eepromRead).2 ∧
      setRGB 255 0 0 <:+ (setup eepromRead).2 ∧
      program eepromRead dj polls = (setup eepromRead).2 ∧
      (∀ c ∈ program eepromRead dj polls, c.isTransportWrite = false ∧ c.isDecode = false)) ∧
    (readAuth eepromRead = "embenull".toList →
      (setup eepromRead).1 = Outcome.returned ∧
      (setup eepromRead).2.filter Call.isTransportWrite = [Call.serial1Println "CONNECT"] ∧
      program eepromRead dj polls =
        (setup eepromRead).2 ++ (runLog dj State.init polls).flatten) := by
  have hiff := strcmp_auth_iff (readAuth eepromRead) (readAuth_length eepromRead)
  constructor
  · intro hne
    have hcmp : ¬ strcmp (readAuth eepromRead ++ [NUL]) ("embenull".toList ++ [NUL]) = 0 :=
      fun h => hne (hiff.mp h)
    have hsetup : setup eepromRead = (Outcome.halted,
        [Call.pinModeOutput SPEAKER_PIN] ++ RGB_LED.map Call.pinModeOutput ++
        [Call.serialBegin 115200, Call.serial1Begin 9600, Call.lcdBegin 20 4,
         Call.glcdInit, Call.glcdClearScreen, Call.glcdSelectFont] ++
        [Call.lcdClear, Call.lcdSetCursor 0 0, Call.lcdPrint "Auth Failed",
         Call.serialPrintln "Auth Failed",
         Call.glcdGotoXY 0 0, Call.glcdPrint "Auth Failed"] ++
        setRGB 255 0 0) := by
      unfold setup
      simp only [hcmp, if_false]
    have hprog : program eepromRead dj polls = (setup eepromRead).2 := by
      unfold program
      rw [hsetup]
    have hquiet : ∀ c ∈ (setup eepromRead).2, c.isTransportWrite = false ∧ c.isDecode = false := by
      rw [hsetup]
      simp [RGB_LED, setRGB, Call.isTransportWrite, Call.isDecode]
    refine ⟨?_, fun c hc => (hquiet c hc).1, ?_, ?_, ?_, hprog, ?_⟩
    · rw [hsetup]
    · rw [hsetup]; simp
    · rw [hsetup]; simp
    · rw [hsetup]; exact List.suffix_append _ _
    · rw [hprog]; exact hquiet
  · intro heq
    have hcmp : strcmp (readAuth eepromRead ++ [NUL]) ("embenull".toList ++ [NUL]) = 0 :=
      hiff.mpr heq
    have hsetup : setup eepromRead = (Outcome.returned,
        [Call.pinModeOutput SPEAKER_PIN] ++ RGB_LED.map Call.pinModeOutput ++
        [Call.serialBegin 115200, Call.serial1Begin 9600, Call.lcdBegin 20 4,
         Call.glcdInit, Call.glcdClearScreen, Call.glcdSelectFont] ++
        [Call.lcdClear, Call.lcdSetCursor 0 0, Call.lcdPrint "Auth Success",
         Call.serialPrintln "Auth Success",
         Call.serial1Println "CONNECT",
         Call.glcdGotoXY 0 0, Call.glcdPrint "Waiting for MQTT..."]) := by
      unfold setup
      simp only [hcmp, if_true]
    refine ⟨?_, ?_, ?_⟩
    · rw [hsetup]
    · rw [hsetup]
      simp [RGB_LED, Call.isTransportWrite, List.filter]
    · unfold program
      rw [hsetup]

/-- Witness of C8: an EEPROM full of "x" halts `setup()`; an EEPROM holding
"embenull" lets it return after "CONNECT". -/
theorem startup_gate_witness :
    (setup (fun _ => 'x')).1 = Outcome.halted ∧
    program (fun _ => 'x') (fun _ => .error .InvalidInput)
      [Poll.atTime 3000 (some "Ping from ESP8266")] = (setup (fun _ => 'x')).2 ∧
    (setup (fun i => "embenull".toList.getD i NUL)).1 = Outcome.returned ∧
    (setup (fun i => "embenull".toList.getD i NUL)).2.filter Call.isTransportWrite =
      [Call.serial1Println "CONNECT"] :=
  ⟨((startup_gate (fun _ => 'x') (fun _ => .error .InvalidInput)
      [Poll.atTime 3000 (some "Ping from ESP8266")]).1 (by decide)).1,
   ((startup_gate (fun _ => 'x') (fun _ => .error .InvalidInput)
      [Poll.atTime 3000 (some "Ping from ESP8266")]).1 (by decide)).2.2.2.2.2.1,
   ((startup_gate (fun i => "embenull".toList.getD i NUL) (fun _ => .error .InvalidInput)
      []).2 (by decide)).1,
   ((startup_gate (fun i => "embenull".toList.getD i NUL) (fun _ => .error .InvalidInput)
      []).2 (by decide)).2.1⟩

/-- C4 fails as stated: a heartbeat line at 1000 ms, a noise line at 5000 ms and
an idle pass at 6500 ms leave the flag Connected, although 5500 ms have passed
since the last heartbeat line, so that the state derived from `lastHeartbeatAt`
is Disconnected. -/
theorem connected_flag_not_derived_from_last_heartbeat :
    (run (fun _ => .error .InvalidInput) State.init
      [Poll.atTime 1000 (some "Ping from ESP8266"),
       Poll.atTime 5000 (some "WiFi Connected"),
       Poll.atTime 6500 none]).uartConnected = true ∧
    lastHeartbeatAt
      [Poll.atTime 1000 (some "Ping from ESP8266"),
       Poll.atTime 5000 (some "WiFi Connected"),
       Poll.atTime 6500 none] = some 1000 ∧
    derivedConnected
      [Poll.atTime 1000 (some "Ping from ESP8266"),
       Poll.atTime 5000 (some "WiFi Connected"),
       Poll.atTime 6500 none] 6500 = false := by
  decide

/-- C4 as amended: the connectivity flag is a stored variable, updated on every
pass.  At startup it is Disconnected.  After a pass of `loop()` it is Connected
exactly when it was Connected before the pass or the pass received a line
containing "Ping" or "Pong" ahead of any NUL byte, and the clock at the timeout
check is at most 5000 ms after `lastUart`, where `lastUart` is the receipt time
of the most recent line of any kind.  Hence, after any passes from startup, Connected
implies that a heartbeat line was received and that the last timeout check came
at most 5000 ms after the most recent line of any kind. -/
theorem connectivity_flag_update (dj : Deserializer) (s : State) (ps : List Poll) (p : Poll) :
    State.init.uartConnected = false ∧
    ((loop dj s p).state.uartConnected = true ↔
      (s.uartConnected = true ∨ ∃ raw, p.line = some raw ∧ MarkerBeforeNUL (trim raw)) ∧
      usub p.tCheck (loop dj s p).state.lastUart ≤ 5000) ∧
    (loop dj s p).state.lastUart = (if p.line.isSome then p.tRecv else s.lastUart) ∧
    (run dj State.init (ps ++ [p])).lastUart = lastLineFrom 0 (ps ++ [p]) ∧
    ((run dj State.init (ps ++ [p])).uartConnected = true →
      (∃ q ∈ ps ++ [p], ∃ raw, q.line = some raw ∧ MarkerBeforeNUL (trim raw)) ∧
      usub p.tCheck (lastLineFrom 0 (ps ++ [p])) ≤ 5000) := by
  have hstep : ∀ s : State, (loop dj s p).state.uartConnected = true ↔
      (s.uartConnected = true ∨ ∃ raw, p.line = some raw ∧ MarkerBeforeNUL (trim raw)) ∧
      usub p.tCheck (loop dj s p).state.lastUart ≤ 5000 := by
    intro s
    rw [loop_uartConnected, ← hasHeartbeat_iff]
    simp only [Bool.and_eq_true, Bool.or_eq_true, Bool.not_eq_true', decide_eq_false_iff_not,
      not_lt]
  refine ⟨rfl, hstep s, loop_lastUart dj s p, run_lastUart dj _ State.init, ?_⟩
  intro hc
  constructor
  · rcases run_connected_has_heartbeat dj _ State.init hc with h | ⟨q, hq, hq2⟩
    · cases h
    · exact ⟨q, hq, (hasHeartbeat_iff q).mp hq2⟩
  · have hl := run_lastUart dj (ps ++ [p]) State.init
    rw [run_append_single] at hc hl
    have := ((hstep _).mp hc).2
    rw [hl] at this
    exact this

/-- Witness of C4 as amended: after a heartbeat line at 1000 ms, a noise line at
5000 ms and an idle pass at 6500 ms the flag is Connected, a heartbeat line was
received, and the last check came 1500 ms after the most recent line. -/
theorem connectivity_flag_update_witness :
    (∃ q ∈ [Poll.atTime 1000 (some "Ping from ESP8266"),
            Poll.atTime 5000 (some "WiFi Connected")] ++ [Poll.atTime 6500 none],
      ∃ raw, q.line = some raw ∧ MarkerBeforeNUL (trim raw)) ∧
    usub (Poll.atTime 6500 none).tCheck
      (lastLineFrom 0 ([Poll.atTime 1000 (some "Ping from ESP8266"),
        Poll.atTime 5000 (some "WiFi Connected")] ++ [Poll.atTime 6500 none])) ≤ 5000 :=
  (connectivity_flag_update (fun _ => .error .InvalidInput) State.init
    [Poll.atTime 1000 (some "Ping from ESP8266"), Poll.atTime 5000 (some "WiFi Connected")]
    (Poll.atTime 6500 none)).2.2.2.2 (by decide)

end Mega2560
